import Mathlib

/-!
Verification of the threejs-viewcube region-configuration table and
orientation synchronizer.

Shallow embedding of `src/faces.js` (region-configuration table builder),
the option handling of `src/ViewCube.js`, and the quaternion transform of
`ViewCubeMesh.setQuaternion` (`src/ViewCubeMesh.js`).

The table builder works on plain JavaScript numbers; all the literals that
occur in it (`0.707`, `0.577`, the distances) are exact decimals, so the
arithmetic is modelled exactly over `ℚ`.  The synchronizer works on
quaternions built with trigonometric functions, so it is modelled over
`Quaternion ℝ`.
-/

open Quaternion

/-- A 3-component vector, as the `{x, y, z}` object literals of `faces.js`. -/
@[ext]
structure Vec3 where
  x : ℚ
  y : ℚ
  z : ℚ
deriving DecidableEq, Repr

namespace Vec3

/-- The zero vector `{x: 0, y: 0, z: 0}`. -/
instance : Zero Vec3 := ⟨⟨0, 0, 0⟩⟩

/-- Componentwise subtraction (used to form `lookAt − position`). -/
instance : Sub Vec3 := ⟨fun a b => ⟨a.x - b.x, a.y - b.y, a.z - b.z⟩⟩

/-- Scalar multiplication (used to express "scalar multiple of"). -/
instance : SMul ℚ Vec3 := ⟨fun k v => ⟨k * v.x, k * v.y, k * v.z⟩⟩

/-- Squared Euclidean norm of a vector (exact, over `ℚ`). -/
def normSq (v : Vec3) : ℚ := v.x ^ 2 + v.y ^ 2 + v.z ^ 2

/-- Euclidean norm of a vector, as a real number. -/
noncomputable def enorm (v : Vec3) : ℝ := Real.sqrt ((normSq v : ℚ) : ℝ)

/-- Cross product, used to witness non-parallelism. -/
def cross (a b : Vec3) : Vec3 :=
  ⟨a.y * b.z - a.z * b.y, a.z * b.x - a.x * b.z, a.x * b.y - a.y * b.x⟩

/-- Predicate: `u` is a scalar multiple of `v` (the "parallel" relation of the spec). -/
def IsScalarMultiple (u v : Vec3) : Prop := ∃ k : ℚ, u = k • v

/-- Predicate: `v` is one of the six cardinal axis unit directions. -/
def IsCardinal (v : Vec3) : Prop :=
  v = ⟨1, 0, 0⟩ ∨ v = ⟨-1, 0, 0⟩ ∨ v = ⟨0, 1, 0⟩ ∨ v = ⟨0, -1, 0⟩ ∨
    v = ⟨0, 0, 1⟩ ∨ v = ⟨0, 0, -1⟩

instance (v : Vec3) : Decidable (IsCardinal v) := by
  unfold IsCardinal; infer_instance

end Vec3

/-- A region configuration `{up, lookAt, position}` from `faces.js`. -/
@[ext]
structure RegionConfig where
  up : Vec3
  lookAt : Vec3
  position : Vec3
deriving DecidableEq, Repr

-- The 26 region identifiers of `FACES` in `faces.js`.
namespace FACES

def TOP : ℕ := 1
def FRONT : ℕ := 2
def RIGHT : ℕ := 3
def BACK : ℕ := 4
def LEFT : ℕ := 5
def BOTTOM : ℕ := 6

def TOP_FRONT_EDGE : ℕ := 7
def TOP_RIGHT_EDGE : ℕ := 8
def TOP_BACK_EDGE : ℕ := 9
def TOP_LEFT_EDGE : ℕ := 10

def FRONT_RIGHT_EDGE : ℕ := 11
def BACK_RIGHT_EDGE : ℕ := 12
def BACK_LEFT_EDGE : ℕ := 13
def FRONT_LEFT_EDGE : ℕ := 14

def BOTTOM_FRONT_EDGE : ℕ := 15
def BOTTOM_RIGHT_EDGE : ℕ := 16
def BOTTOM_BACK_EDGE : ℕ := 17
def BOTTOM_LEFT_EDGE : ℕ := 18

def TOP_FRONT_RIGHT_CORNER : ℕ := 19
def TOP_BACK_RIGHT_CORNER : ℕ := 20
def TOP_BACK_LEFT_CORNER : ℕ := 21
def TOP_FRONT_LEFT_CORNER : ℕ := 22

def BOTTOM_FRONT_RIGHT_CORNER : ℕ := 23
def BOTTOM_BACK_RIGHT_CORNER : ℕ := 24
def BOTTOM_BACK_LEFT_CORNER : ℕ := 25
def BOTTOM_FRONT_LEFT_CORNER : ℕ := 26

end FACES

/-- Embedding of `getEdgeConfigs(system, d)` from `faces.js`.  The JavaScript
object literal is modelled as an association list in source order; `0.707` is
the exact decimal `707/1000` used by the code (`const e = d * 0.707`). -/
def getEdgeConfigs (system : String) (d : ℚ) : List (ℕ × RegionConfig) :=
  let e : ℚ := d * (707 / 1000)
  if system = "Z-up" then
    [(FACES.TOP_FRONT_EDGE, ⟨⟨0, 0, 1⟩, ⟨0, 1, 0⟩, ⟨0, -e, e⟩⟩),
     (FACES.TOP_RIGHT_EDGE, ⟨⟨0, 0, 1⟩, ⟨1, 0, 0⟩, ⟨e, 0, e⟩⟩),
     (FACES.TOP_BACK_EDGE, ⟨⟨0, 0, 1⟩, ⟨0, -1, 0⟩, ⟨0, e, e⟩⟩),
     (FACES.TOP_LEFT_EDGE, ⟨⟨0, 0, 1⟩, ⟨-1, 0, 0⟩, ⟨-e, 0, e⟩⟩),
     (FACES.FRONT_RIGHT_EDGE, ⟨⟨0, 0, 1⟩, ⟨0, 0, 0⟩, ⟨e, -e, 0⟩⟩),
     (FACES.BACK_RIGHT_EDGE, ⟨⟨0, 0, 1⟩, ⟨0, 0, 0⟩, ⟨e, e, 0⟩⟩),
     (FACES.BACK_LEFT_EDGE, ⟨⟨0, 0, 1⟩, ⟨0, 0, 0⟩, ⟨-e, e, 0⟩⟩),
     (FACES.FRONT_LEFT_EDGE, ⟨⟨0, 0, 1⟩, ⟨0, 0, 0⟩, ⟨-e, -e, 0⟩⟩),
     (FACES.BOTTOM_FRONT_EDGE, ⟨⟨0, 0, 1⟩, ⟨0, 1, 0⟩, ⟨0, -e, -e⟩⟩),
     (FACES.BOTTOM_RIGHT_EDGE, ⟨⟨0, 0, 1⟩, ⟨1, 0, 0⟩, ⟨e, 0, -e⟩⟩),
     (FACES.BOTTOM_BACK_EDGE, ⟨⟨0, 0, 1⟩, ⟨0, -1, 0⟩, ⟨0, e, -e⟩⟩),
     (FACES.BOTTOM_LEFT_EDGE, ⟨⟨0, 0, 1⟩, ⟨-1, 0, 0⟩, ⟨-e, 0, -e⟩⟩)]
  else
    [(FACES.TOP_FRONT_EDGE, ⟨⟨0, 1, 0⟩, ⟨0, 0, 0⟩, ⟨0, e, e⟩⟩),
     (FACES.TOP_RIGHT_EDGE, ⟨⟨0, 1, 0⟩, ⟨0, 0, 0⟩, ⟨e, e, 0⟩⟩),
     (FACES.TOP_BACK_EDGE, ⟨⟨0, 1, 0⟩, ⟨0, 0, 0⟩, ⟨0, e, -e⟩⟩),
     (FACES.TOP_LEFT_EDGE, ⟨⟨0, 1, 0⟩, ⟨0, 0, 0⟩, ⟨-e, e, 0⟩⟩),
     (FACES.FRONT_RIGHT_EDGE, ⟨⟨0, 1, 0⟩, ⟨0, 0, 0⟩, ⟨e, 0, e⟩⟩),
     (FACES.BACK_RIGHT_EDGE, ⟨⟨0, 1, 0⟩, ⟨0, 0, 0⟩, ⟨e, 0, -e⟩⟩),
     (FACES.BACK_LEFT_EDGE, ⟨⟨0, 1, 0⟩, ⟨0, 0, 0⟩, ⟨-e, 0, -e⟩⟩),
     (FACES.FRONT_LEFT_EDGE, ⟨⟨0, 1, 0⟩, ⟨0, 0, 0⟩, ⟨-e, 0, e⟩⟩),
     (FACES.BOTTOM_FRONT_EDGE, ⟨⟨0, 1, 0⟩, ⟨0, 0, 0⟩, ⟨0, -e, e⟩⟩),
     (FACES.BOTTOM_RIGHT_EDGE, ⟨⟨0, 1, 0⟩, ⟨0, 0, 0⟩, ⟨e, -e, 0⟩⟩),
     (FACES.BOTTOM_BACK_EDGE, ⟨⟨0, 1, 0⟩, ⟨0, 0, 0⟩, ⟨0, -e, -e⟩⟩),
     (FACES.BOTTOM_LEFT_EDGE, ⟨⟨0, 1, 0⟩, ⟨0, 0, 0⟩, ⟨-e, -e, 0⟩⟩)]

/-- Embedding of `getCornerConfigs(system, d)` from `faces.js`; `0.577` is
the exact decimal `577/1000` used by the code (`const c = d * 0.577`). -/
def getCornerConfigs (system : String) (d : ℚ) : List (ℕ × RegionConfig) :=
  let c : ℚ := d * (577 / 1000)
  let up : Vec3 := if system = "Z-up" then ⟨0, 0, 1⟩ else ⟨0, 1, 0⟩
  if system = "Z-up" then
    [(FACES.TOP_FRONT_RIGHT_CORNER, ⟨up, ⟨0, 0, 0⟩, ⟨c, -c, c⟩⟩),
     (FACES.TOP_BACK_RIGHT_CORNER, ⟨up, ⟨0, 0, 0⟩, ⟨c, c, c⟩⟩),
     (FACES.TOP_BACK_LEFT_CORNER, ⟨up, ⟨0, 0, 0⟩, ⟨-c, c, c⟩⟩),
     (FACES.TOP_FRONT_LEFT_CORNER, ⟨up, ⟨0, 0, 0⟩, ⟨-c, -c, c⟩⟩),
     (FACES.BOTTOM_FRONT_RIGHT_CORNER, ⟨up, ⟨0, 0, 0⟩, ⟨c, -c, -c⟩⟩),
     (FACES.BOTTOM_BACK_RIGHT_CORNER, ⟨up, ⟨0, 0, 0⟩, ⟨c, c, -c⟩⟩),
     (FACES.BOTTOM_BACK_LEFT_CORNER, ⟨up, ⟨0, 0, 0⟩, ⟨-c, c, -c⟩⟩),
     (FACES.BOTTOM_FRONT_LEFT_CORNER, ⟨up, ⟨0, 0, 0⟩, ⟨-c, -c, -c⟩⟩)]
  else
    [(FACES.TOP_FRONT_RIGHT_CORNER, ⟨up, ⟨0, 0, 0⟩, ⟨c, c, c⟩⟩),
     (FACES.TOP_BACK_RIGHT_CORNER, ⟨up, ⟨0, 0, 0⟩, ⟨c, c, -c⟩⟩),
     (FACES.TOP_BACK_LEFT_CORNER, ⟨up, ⟨0, 0, 0⟩, ⟨-c, c, -c⟩⟩),
     (FACES.TOP_FRONT_LEFT_CORNER, ⟨up, ⟨0, 0, 0⟩, ⟨-c, c, c⟩⟩),
     (FACES.BOTTOM_FRONT_RIGHT_CORNER, ⟨up, ⟨0, 0, 0⟩, ⟨c, -c, c⟩⟩),
     (FACES.BOTTOM_BACK_RIGHT_CORNER, ⟨up, ⟨0, 0, 0⟩, ⟨c, -c, -c⟩⟩),
     (FACES.BOTTOM_BACK_LEFT_CORNER, ⟨up, ⟨0, 0, 0⟩, ⟨-c, -c, -c⟩⟩),
     (FACES.BOTTOM_FRONT_LEFT_CORNER, ⟨up, ⟨0, 0, 0⟩, ⟨-c, -c, c⟩⟩)]

/-- Embedding of `getZUpFaceConfigs(d)` from `faces.js`: the six face entries
followed by the spread-in edge and corner entries (all keys distinct, so the
object spread is faithfully an append). -/
def getZUpFaceConfigs (d : ℚ) : List (ℕ × RegionConfig) :=
  [(FACES.TOP, ⟨⟨0, 1, 0⟩, ⟨0, 0, -1⟩, ⟨0, 0, d⟩⟩),
   (FACES.FRONT, ⟨⟨0, 0, 1⟩, ⟨0, 1, 0⟩, ⟨0, -d, 0⟩⟩),
   (FACES.RIGHT, ⟨⟨0, 0, 1⟩, ⟨1, 0, 0⟩, ⟨d, 0, 0⟩⟩),
   (FACES.BACK, ⟨⟨0, 0, 1⟩, ⟨0, -1, 0⟩, ⟨0, d, 0⟩⟩),
   (FACES.LEFT, ⟨⟨0, 0, 1⟩, ⟨-1, 0, 0⟩, ⟨-d, 0, 0⟩⟩),
   (FACES.BOTTOM, ⟨⟨0, -1, 0⟩, ⟨0, 0, 1⟩, ⟨0, 0, -d⟩⟩)]
  ++ getEdgeConfigs "Z-up" d ++ getCornerConfigs "Z-up" d

/-- Embedding of `getYUpFaceConfigs(d)` from `faces.js`. -/
def getYUpFaceConfigs (d : ℚ) : List (ℕ × RegionConfig) :=
  [(FACES.TOP, ⟨⟨0, 0, -1⟩, ⟨0, -1, 0⟩, ⟨0, d, 0⟩⟩),
   (FACES.FRONT, ⟨⟨0, 1, 0⟩, ⟨0, 0, -1⟩, ⟨0, 0, d⟩⟩),
   (FACES.RIGHT, ⟨⟨0, 1, 0⟩, ⟨-1, 0, 0⟩, ⟨d, 0, 0⟩⟩),
   (FACES.BACK, ⟨⟨0, 1, 0⟩, ⟨0, 0, 1⟩, ⟨0, 0, -d⟩⟩),
   (FACES.LEFT, ⟨⟨0, 1, 0⟩, ⟨1, 0, 0⟩, ⟨-d, 0, 0⟩⟩),
   (FACES.BOTTOM, ⟨⟨0, 0, 1⟩, ⟨0, 1, 0⟩, ⟨0, -d, 0⟩⟩)]
  ++ getEdgeConfigs "Y-up" d ++ getCornerConfigs "Y-up" d

/-- Embedding of `getFaceConfigs(coordinateSystem, distance)` from
`faces.js`, whose defaults are `Z-up` and `100`.  JavaScript default
parameters fire exactly when the argument is `undefined`, modelled by
`Option.getD`.  The dispatch is the literal `coordinateSystem === "Z-up"`
check with the Y-up table as the fallthrough. -/
def getFaceConfigs (coordinateSystem : Option String) (distance : Option ℚ) :
    List (ℕ × RegionConfig) :=
  let cs := coordinateSystem.getD "Z-up"
  let d := distance.getD 100
  if cs = "Z-up" then getZUpFaceConfigs d else getYUpFaceConfigs d

/-- Option resolution performed by the `ViewCube` constructor
(`ViewCube.js`): `options.coordinateSystem || "Z-up"` — any falsy value
(absent or the empty string) selects the default. -/
def resolveCoordinateSystem (o : Option String) : String :=
  match o with
  | none => "Z-up"
  | some s => if s = "" then "Z-up" else s

/-- Option resolution performed by the `ViewCube` constructor
(`ViewCube.js`): `options.cameraDistance || 100` — any falsy value (absent
or `0`) selects the default. -/
def resolveCameraDistance (o : Option ℚ) : ℚ :=
  match o with
  | none => 100
  | some x => if x = 0 then 100 else x

/-- Embedding of `THREE.Quaternion.setFromAxisAngle(axis, angle)` as used
by `ViewCubeMesh.setQuaternion`: components
`(w, x, y, z) = (cos(angle/2), axis·sin(angle/2))`. -/
noncomputable def setFromAxisAngle (x y z angle : ℝ) : Quaternion ℝ :=
  ⟨Real.cos (angle / 2), x * Real.sin (angle / 2), y * Real.sin (angle / 2),
    z * Real.sin (angle / 2)⟩

/-- The fixed correction quaternion built by `ViewCubeMesh.setQuaternion`
for the Z-up convention: `setFromAxisAngle(new Vector3(1, 0, 0), π/2)`. -/
noncomputable def zUpToYUp : Quaternion ℝ := setFromAxisAngle 1 0 0 (Real.pi / 2)

/-- Embedding of `ViewCubeMesh.setQuaternion(quaternion)` from
`ViewCubeMesh.js`: the rotation applied to the cube.  `THREE.Quaternion.invert` on a unit
quaternion is the conjugate, embedded as `star`; for Z-up the code sets
`finalQuat = invertedQuat * zUpToYUp` (`multiplyQuaternions`), for any
other convention it applies the conjugate alone. -/
noncomputable def setQuaternionRotation (coordinateSystem : String)
    (q : Quaternion ℝ) : Quaternion ℝ :=
  if coordinateSystem = "Z-up" then star q * zUpToYUp else star q

/-- Spec-side definition of the correction term of §4.2 —
the identity for Y-up and the +90°-about-X rotation for Z-up — used to
state the refinement `display = invert(cameraOrientation) ∘ correction`. -/
noncomputable def specCorrection (cs : String) : Quaternion ℝ :=
  if cs = "Z-up" then zUpToYUp else 1

theorem Vec3.zero_def : (0 : Vec3) = ⟨0, 0, 0⟩ := rfl

theorem Vec3.sub_def (a b : Vec3) : a - b = ⟨a.x - b.x, a.y - b.y, a.z - b.z⟩ := rfl

theorem Vec3.smul_def (k : ℚ) (v : Vec3) : k • v = ⟨k * v.x, k * v.y, k * v.z⟩ := rfl

/-- A vector with nonzero squared norm is nonzero. -/
theorem Vec3.ne_zero_of_normSq {v : Vec3} (h : Vec3.normSq v ≠ 0) : v ≠ 0 :=
  fun hv => h (by rw [hv]; simp [Vec3.normSq, Vec3.zero_def])

/-- A nonvanishing cross product rules out one vector being a scalar
multiple of the other. -/
theorem Vec3.not_scalarMultiple_of_crossSq {u v : Vec3}
    (h : Vec3.normSq (Vec3.cross u v) ≠ 0) : ¬ Vec3.IsScalarMultiple u v := by
  rintro ⟨k, rfl⟩
  apply h
  simp only [Vec3.cross, Vec3.smul_def, Vec3.normSq]
  ring

/-- Association-list lookup succeeds exactly on the keys of the list. -/
theorem lookup_isSome_iff {β : Type} (l : List (ℕ × β)) (n : ℕ) :
    (l.lookup n).isSome ↔ n ∈ l.map Prod.fst := by
  induction l with
  | nil => simp [List.lookup]
  | cons p l ih =>
    rcases p with ⟨k, v⟩
    by_cases h : n = k
    · subst h; simp [List.lookup]
    · simp [List.lookup, h, ih, beq_false_of_ne h]

/-- A successful association-list lookup comes from a member of the list. -/
theorem mem_of_lookup_eq_some {β : Type} {l : List (ℕ × β)} {n : ℕ} {v : β}
    (h : l.lookup n = some v) : (n, v) ∈ l := by
  induction l with
  | nil => simp [List.lookup] at h
  | cons p l ih =>
    rcases p with ⟨k, w⟩
    by_cases hk : n = k
    · subst hk
      simp [List.lookup] at h
      simp [h]
    · simp [List.lookup, beq_false_of_ne hk] at h
      exact List.mem_cons_of_mem _ (ih h)

/-- C3: For both conventions and any distance, the key list of the builder is
exactly the identifiers 1..26 in order, and a lookup succeeds exactly on
identifiers in [1, 26].  (Every entry is a structurally complete
`RegionConfig`, so all three of `position`, `up`, `lookAt` are populated.) -/
theorem c3_completeness (cs : String) (hcs : cs = "Y-up" ∨ cs = "Z-up") (d : ℚ) :
    (getFaceConfigs (some cs) (some d)).map Prod.fst = List.range' 1 26 ∧
    ∀ n : ℕ, ((getFaceConfigs (some cs) (some d)).lookup n).isSome ↔ 1 ≤ n ∧ n ≤ 26 := by
  have hkeys : (getFaceConfigs (some cs) (some d)).map Prod.fst = List.range' 1 26 := by
    rcases hcs with rfl | rfl <;> rfl
  refine ⟨hkeys, fun n => ?_⟩
  rw [lookup_isSome_iff, hkeys, List.mem_range'_1]
  omega

/-- Witness for C3 at the concrete input `cs = "Z-up"`, `d = 100`. -/
theorem c3_completeness_witness :
    ("Z-up" = "Y-up" ∨ "Z-up" = "Z-up") ∧
    ((getFaceConfigs (some "Z-up") (some 100)).map Prod.fst = List.range' 1 26 ∧
      ∀ n : ℕ,
        ((getFaceConfigs (some "Z-up") (some 100)).lookup n).isSome ↔ 1 ≤ n ∧ n ≤ 26) :=
  ⟨Or.inr rfl, c3_completeness "Z-up" (Or.inr rfl) 100⟩

/-- C10: An omitted coordinate-system argument defaults to the Z-up table
with distance 100, while an unrecognized non-`"Z-up"` string selects the
(different) Y-up table; the `ViewCube` constructor resolves absent options
to the same `"Z-up"` and `100` defaults. -/
theorem c10_defaults (s : String) (hs : s ≠ "Z-up") :
    getFaceConfigs none none = getZUpFaceConfigs 100 ∧
    getFaceConfigs (some s) none = getYUpFaceConfigs 100 ∧
    getFaceConfigs (some s) none ≠ getFaceConfigs none none ∧
    resolveCoordinateSystem none = "Z-up" ∧
    resolveCameraDistance none = 100 := by
  have h1 : getFaceConfigs none none = getZUpFaceConfigs 100 := rfl
  have h2 : getFaceConfigs (some s) none = getYUpFaceConfigs 100 := by
    simp [getFaceConfigs, hs]
  refine ⟨h1, h2, ?_, rfl, rfl⟩
  rw [h1, h2]
  decide

/-- Witness for C10 at the concrete unrecognized string `"W-up"`. -/
theorem c10_defaults_witness :
    ("W-up" : String) ≠ "Z-up" ∧
    (getFaceConfigs none none = getZUpFaceConfigs 100 ∧
      getFaceConfigs (some "W-up") none = getYUpFaceConfigs 100 ∧
      getFaceConfigs (some "W-up") none ≠ getFaceConfigs none none ∧
      resolveCoordinateSystem none = "Z-up" ∧
      resolveCameraDistance none = 100) :=
  ⟨by decide, c10_defaults "W-up" (by decide)⟩

/-- C4 counterexample: with the unrecognized coordinate-system value
`"X-up"` the builder does not fail — it silently returns the default
(Y-up) table, and lookups on it succeed.  This refutes the claim that an
unrecognized value surfaces an InvalidArgument error instead of a silent
default substitution. -/
theorem c4_counterexample :
    getFaceConfigs (some "X-up") (some 100) = getYUpFaceConfigs 100 ∧
    ((getFaceConfigs (some "X-up") (some 100)).lookup FACES.TOP).isSome = true := by
  constructor
  · simp [getFaceConfigs]
  · simp [getFaceConfigs, getYUpFaceConfigs, FACES.TOP, List.lookup]

/-- C4 amended: for every coordinate-system value outside
`{"Y-up", "Z-up"}` and any distance, the builder raises no error and
silently returns the Y-up table. -/
theorem c4_amended (s : String) (hs : s ≠ "Z-up") (_h' : s ≠ "Y-up") (d : ℚ) :
    getFaceConfigs (some s) (some d) = getYUpFaceConfigs d := by
  simp [getFaceConfigs, hs]

/-- Witness for the amended C4 at `s = "X-up"`, `d = 5`. -/
theorem c4_amended_witness :
    ("X-up" : String) ≠ "Z-up" ∧ ("X-up" : String) ≠ "Y-up" ∧
    getFaceConfigs (some "X-up") (some 5) = getYUpFaceConfigs 5 :=
  ⟨by decide, by decide, c4_amended "X-up" (by decide) (by decide) 5⟩

/-- C7: Under the Z-up convention with distance 100, the FRONT region
configuration is `up=(0,0,1)`, `lookAt=(0,1,0)`, `position=(0,-100,0)`. -/
theorem c7_zup_front_config :
    (getFaceConfigs (some "Z-up") (some 100)).lookup FACES.FRONT =
      some ⟨⟨0, 0, 1⟩, ⟨0, 1, 0⟩, ⟨0, -100, 0⟩⟩ := by
  decide

/-- C8: Under the Y-up convention with distance 100, the TOP region
configuration is `up=(0,0,-1)`, `lookAt=(0,-1,0)`, `position=(0,100,0)`. -/
theorem c8_yup_top_config :
    (getFaceConfigs (some "Y-up") (some 100)).lookup FACES.TOP =
      some ⟨⟨0, 0, -1⟩, ⟨0, -1, 0⟩, ⟨0, 100, 0⟩⟩ := by
  decide

/-- Helper for C5: the Z-up edge entries (identifiers 7..18) have a
cardinal-axis `lookAt` for the top/bottom edges (7..10 and 15..18) and the
origin for the side edges (11..14). -/
theorem zupEdgeLookAt (d : ℚ) :
    ∀ p ∈ getFaceConfigs (some "Z-up") (some d),
      7 ≤ p.1 → p.1 ≤ 18 →
        ((p.1 ≤ 10 ∨ 15 ≤ p.1) → (p.2).lookAt.IsCardinal) ∧
        (11 ≤ p.1 → p.1 ≤ 14 → (p.2).lookAt = 0) := by
  simp only [getFaceConfigs, Option.getD_some, getZUpFaceConfigs, getEdgeConfigs,
    getCornerConfigs, String.reduceEq, reduceIte, List.forall_mem_append,
    List.forall_mem_cons, List.not_mem_nil, false_implies, forall_const,
    implies_true, and_true]
  repeat' apply And.intro
  all_goals decide

/-- Helper for C5: every Y-up edge entry (identifiers 7..18) has the
origin as its `lookAt`. -/
theorem yupEdgeLookAt (d : ℚ) :
    ∀ p ∈ getFaceConfigs (some "Y-up") (some d),
      7 ≤ p.1 → p.1 ≤ 18 → (p.2).lookAt = 0 := by
  simp only [getFaceConfigs, Option.getD_some, getYUpFaceConfigs, getEdgeConfigs,
    getCornerConfigs, String.reduceEq, reduceIte, List.forall_mem_append,
    List.forall_mem_cons, List.not_mem_nil, false_implies, forall_const,
    implies_true, and_true]
  repeat' apply And.intro
  all_goals decide

/-- C5 counterexample: under Y-up (distance 100) the TOP_FRONT_EDGE — a
top edge — has `lookAt` equal to the origin, which is not a cardinal axis
direction.  This refutes the claim that for both conventions the
top/bottom edges look along a cardinal axis. -/
theorem c5_counterexample :
    ((getFaceConfigs (some "Y-up") (some 100)).lookup FACES.TOP_FRONT_EDGE).map
        RegionConfig.lookAt = some 0 ∧ ¬ Vec3.IsCardinal 0 := by
  constructor
  · decide
  · decide

/-- C5 amended: under the Z-up convention the 8 top/bottom edges have a
cardinal-axis `lookAt` and the 4 side edges look at the origin; under the
Y-up convention all 12 edges look at the origin. -/
theorem c5_amended (d : ℚ) (n : ℕ) (cfgZ cfgY : RegionConfig)
    (hZ : (getFaceConfigs (some "Z-up") (some d)).lookup n = some cfgZ)
    (hY : (getFaceConfigs (some "Y-up") (some d)).lookup n = some cfgY)
    (h7 : 7 ≤ n) (h18 : n ≤ 18) :
    ((n ≤ 10 ∨ 15 ≤ n) → cfgZ.lookAt.IsCardinal) ∧
    (11 ≤ n → n ≤ 14 → cfgZ.lookAt = 0) ∧
    cfgY.lookAt = 0 :=
  ⟨(zupEdgeLookAt d (n, cfgZ) (mem_of_lookup_eq_some hZ) h7 h18).1,
    (zupEdgeLookAt d (n, cfgZ) (mem_of_lookup_eq_some hZ) h7 h18).2,
    yupEdgeLookAt d (n, cfgY) (mem_of_lookup_eq_some hY) h7 h18⟩

/-- Witness for the amended C5 at `d = 100`, `n = 7` (TOP_FRONT_EDGE). -/
theorem c5_amended_witness :
    ((getFaceConfigs (some "Z-up") (some 100)).lookup FACES.TOP_FRONT_EDGE =
        some ⟨⟨0, 0, 1⟩, ⟨0, 1, 0⟩,
          ⟨0, -(100 * (707 / 1000)), 100 * (707 / 1000)⟩⟩) ∧
    ((getFaceConfigs (some "Y-up") (some 100)).lookup FACES.TOP_FRONT_EDGE =
        some ⟨⟨0, 1, 0⟩, ⟨0, 0, 0⟩,
          ⟨0, 100 * (707 / 1000), 100 * (707 / 1000)⟩⟩) ∧
    7 ≤ FACES.TOP_FRONT_EDGE ∧ FACES.TOP_FRONT_EDGE ≤ 18 ∧
    (((FACES.TOP_FRONT_EDGE ≤ 10 ∨ 15 ≤ FACES.TOP_FRONT_EDGE) →
        Vec3.IsCardinal (⟨0, 1, 0⟩ : Vec3)) ∧
      (11 ≤ FACES.TOP_FRONT_EDGE → FACES.TOP_FRONT_EDGE ≤ 14 →
        (⟨0, 1, 0⟩ : Vec3) = 0) ∧
      (⟨0, 0, 0⟩ : Vec3) = 0) :=
  ⟨rfl, rfl, by decide, by decide,
    c5_amended 100 FACES.TOP_FRONT_EDGE
      ⟨⟨0, 0, 1⟩, ⟨0, 1, 0⟩, ⟨0, -(100 * (707 / 1000)), 100 * (707 / 1000)⟩⟩
      ⟨⟨0, 1, 0⟩, ⟨0, 0, 0⟩, ⟨0, 100 * (707 / 1000), 100 * (707 / 1000)⟩⟩
      rfl rfl (by decide) (by decide)⟩

/-- Helper for C2: exact squared position norms in the Z-up table. -/
theorem zupNormSq (d : ℚ) :
    ∀ p ∈ getFaceConfigs (some "Z-up") (some d),
      (p.1 ≤ 6 → Vec3.normSq (p.2).position = d ^ 2) ∧
      (7 ≤ p.1 → p.1 ≤ 18 →
        Vec3.normSq (p.2).position = 2 * (707 / 1000) ^ 2 * d ^ 2) ∧
      (19 ≤ p.1 → Vec3.normSq (p.2).position = 3 * (577 / 1000) ^ 2 * d ^ 2) := by
  simp only [getFaceConfigs, Option.getD_some, getZUpFaceConfigs, getYUpFaceConfigs,
    getEdgeConfigs, getCornerConfigs, String.reduceEq, reduceIte,
    List.forall_mem_append, List.forall_mem_cons, List.not_mem_nil, false_implies,
    forall_const, implies_true, and_true, FACES.TOP, FACES.FRONT, FACES.RIGHT,
    FACES.BACK, FACES.LEFT, FACES.BOTTOM, FACES.TOP_FRONT_EDGE,
    FACES.TOP_RIGHT_EDGE, FACES.TOP_BACK_EDGE, FACES.TOP_LEFT_EDGE,
    FACES.FRONT_RIGHT_EDGE, FACES.BACK_RIGHT_EDGE, FACES.BACK_LEFT_EDGE,
    FACES.FRONT_LEFT_EDGE, FACES.BOTTOM_FRONT_EDGE, FACES.BOTTOM_RIGHT_EDGE,
    FACES.BOTTOM_BACK_EDGE, FACES.BOTTOM_LEFT_EDGE, FACES.TOP_FRONT_RIGHT_CORNER,
    FACES.TOP_BACK_RIGHT_CORNER, FACES.TOP_BACK_LEFT_CORNER,
    FACES.TOP_FRONT_LEFT_CORNER, FACES.BOTTOM_FRONT_RIGHT_CORNER,
    FACES.BOTTOM_BACK_RIGHT_CORNER, FACES.BOTTOM_BACK_LEFT_CORNER,
    FACES.BOTTOM_FRONT_LEFT_CORNER]
  repeat' apply And.intro
  all_goals intros
  all_goals first
    | (exfalso; omega)
    | (simp only [Vec3.normSq]; ring)

/-- Helper for C2: exact squared position norms in the Y-up table. -/
theorem yupNormSq (d : ℚ) :
    ∀ p ∈ getFaceConfigs (some "Y-up") (some d),
      (p.1 ≤ 6 → Vec3.normSq (p.2).position = d ^ 2) ∧
      (7 ≤ p.1 → p.1 ≤ 18 →
        Vec3.normSq (p.2).position = 2 * (707 / 1000) ^ 2 * d ^ 2) ∧
      (19 ≤ p.1 → Vec3.normSq (p.2).position = 3 * (577 / 1000) ^ 2 * d ^ 2) := by
  simp only [getFaceConfigs, Option.getD_some, getZUpFaceConfigs, getYUpFaceConfigs,
    getEdgeConfigs, getCornerConfigs, String.reduceEq, reduceIte,
    List.forall_mem_append, List.forall_mem_cons, List.not_mem_nil, false_implies,
    forall_const, implies_true, and_true, FACES.TOP, FACES.FRONT, FACES.RIGHT,
    FACES.BACK, FACES.LEFT, FACES.BOTTOM, FACES.TOP_FRONT_EDGE,
    FACES.TOP_RIGHT_EDGE, FACES.TOP_BACK_EDGE, FACES.TOP_LEFT_EDGE,
    FACES.FRONT_RIGHT_EDGE, FACES.BACK_RIGHT_EDGE, FACES.BACK_LEFT_EDGE,
    FACES.FRONT_LEFT_EDGE, FACES.BOTTOM_FRONT_EDGE, FACES.BOTTOM_RIGHT_EDGE,
    FACES.BOTTOM_BACK_EDGE, FACES.BOTTOM_LEFT_EDGE, FACES.TOP_FRONT_RIGHT_CORNER,
    FACES.TOP_BACK_RIGHT_CORNER, FACES.TOP_BACK_LEFT_CORNER,
    FACES.TOP_FRONT_LEFT_CORNER, FACES.BOTTOM_FRONT_RIGHT_CORNER,
    FACES.BOTTOM_BACK_RIGHT_CORNER, FACES.BOTTOM_BACK_LEFT_CORNER,
    FACES.BOTTOM_FRONT_LEFT_CORNER]
  repeat' apply And.intro
  all_goals intros
  all_goals first
    | (exfalso; omega)
    | (simp only [Vec3.normSq]; ring)

/-- C2 counterexample: at Z-up and distance 1, the TOP_FRONT_EDGE position
is `(0, -0.707, 0.707)`, whose Euclidean norm `√(499849/500000) ≈ 0.99985`
exceeds `(√2/2)·(1 + 10⁻⁹)`.  So the edge-position norm is not
`d·√2/2` within a relative tolerance of `10⁻⁹`, refuting the claim (the
code scales each nonzero coordinate — not the norm — by `d·0.707`). -/
theorem c2_counterexample :
    ((getFaceConfigs (some "Z-up") (some 1)).lookup FACES.TOP_FRONT_EDGE).map
        RegionConfig.position = some ⟨0, -(707 / 1000), 707 / 1000⟩ ∧
    (1 + 1 / 1000000000) * (Real.sqrt 2 / 2) <
      Vec3.enorm ⟨0, -(707 / 1000), 707 / 1000⟩ := by
  constructor
  · have h : (getFaceConfigs (some "Z-up") (some 1)).lookup FACES.TOP_FRONT_EDGE =
        some ⟨⟨0, 0, 1⟩, ⟨0, 1, 0⟩, ⟨0, -(1 * (707 / 1000)), 1 * (707 / 1000)⟩⟩ := rfl
    rw [h]
    norm_num
  · have hn : ((Vec3.normSq ⟨0, -(707 / 1000), 707 / 1000⟩ : ℚ) : ℝ) =
        499849 / 500000 := by
      norm_num [Vec3.normSq]
    rw [Vec3.enorm, hn]
    have hx : (0 : ℝ) ≤ (1 + 1 / 1000000000) * (Real.sqrt 2 / 2) := by positivity
    rw [Real.lt_sqrt hx, mul_pow, div_pow, Real.sq_sqrt (by norm_num : (0 : ℝ) ≤ 2)]
    norm_num

/-- C2 amended: for both conventions and every distance `d`, the squared
position norm is exactly `d²` for faces, `2·0.707²·d²` for edges and
`3·0.577²·d²` for corners.  (So edge and corner radii are `d·0.707·√2 ≈
0.99985·d` and `d·0.577·√3 ≈ 0.99940·d`, approximations of `d` — not
`d·√2/2` and `d/√3`.) -/
theorem c2_amended (cs : String) (hcs : cs = "Y-up" ∨ cs = "Z-up") (d : ℚ)
    (n : ℕ) (cfg : RegionConfig)
    (h : (getFaceConfigs (some cs) (some d)).lookup n = some cfg) :
    (n ≤ 6 → Vec3.normSq cfg.position = d ^ 2) ∧
    (7 ≤ n → n ≤ 18 → Vec3.normSq cfg.position = 2 * (707 / 1000) ^ 2 * d ^ 2) ∧
    (19 ≤ n → Vec3.normSq cfg.position = 3 * (577 / 1000) ^ 2 * d ^ 2) := by
  rcases hcs with rfl | rfl
  · exact yupNormSq d (n, cfg) (mem_of_lookup_eq_some h)
  · exact zupNormSq d (n, cfg) (mem_of_lookup_eq_some h)

/-- Witness for the amended C2 at `cs = "Z-up"`, `d = 1`, `n = 1` (TOP). -/
theorem c2_amended_witness :
    (("Z-up" : String) = "Y-up" ∨ ("Z-up" : String) = "Z-up") ∧
    ((getFaceConfigs (some "Z-up") (some 1)).lookup FACES.TOP =
      some ⟨⟨0, 1, 0⟩, ⟨0, 0, -1⟩, ⟨0, 0, 1⟩⟩) ∧
    ((FACES.TOP ≤ 6 → Vec3.normSq (⟨0, 0, 1⟩ : Vec3) = 1 ^ 2) ∧
      (7 ≤ FACES.TOP → FACES.TOP ≤ 18 →
        Vec3.normSq (⟨0, 0, 1⟩ : Vec3) = 2 * (707 / 1000) ^ 2 * 1 ^ 2) ∧
      (19 ≤ FACES.TOP → Vec3.normSq (⟨0, 0, 1⟩ : Vec3) = 3 * (577 / 1000) ^ 2 * 1 ^ 2)) :=
  ⟨Or.inr rfl, rfl,
    c2_amended "Z-up" (Or.inr rfl) 1 FACES.TOP ⟨⟨0, 1, 0⟩, ⟨0, 0, -1⟩, ⟨0, 0, 1⟩⟩ rfl⟩

/-- C6 counterexample: under Z-up at distance `1000/707` (where
`d·0.707 = 1` exactly), the TOP_RIGHT_EDGE has `up = (0,0,1)` and
`lookAt − position = (0,0,−1)`, and the former is the `(−1)`-multiple of
the latter.  So `up` *is* parallel to the gaze there, refuting the claim
for that positive distance. -/
theorem c6_counterexample :
    ((getFaceConfigs (some "Z-up") (some (1000 / 707))).lookup
        FACES.TOP_RIGHT_EDGE).map (fun cfg => (cfg.up, cfg.lookAt - cfg.position)) =
      some (⟨0, 0, 1⟩, ⟨0, 0, -1⟩) ∧
    Vec3.IsScalarMultiple ⟨0, 0, 1⟩ ⟨0, 0, -1⟩ ∧ (0 : ℚ) < 1000 / 707 := by
  refine ⟨?_, ⟨-1, ?_⟩, by norm_num⟩
  · have h : (getFaceConfigs (some "Z-up") (some (1000 / 707))).lookup
        FACES.TOP_RIGHT_EDGE =
        some ⟨⟨0, 0, 1⟩, ⟨1, 0, 0⟩,
          ⟨1000 / 707 * (707 / 1000), 0, 1000 / 707 * (707 / 1000)⟩⟩ := rfl
    rw [h]
    norm_num [Vec3.sub_def, Vec3.ext_iff, Prod.ext_iff]
  · norm_num [Vec3.smul_def, Vec3.ext_iff]

set_option maxHeartbeats 1000000 in
/-- Helper for C6: nondegeneracy of every Z-up entry away from the
degenerate distance `d·0.707 = 1`. -/
theorem zupNondegenerate (d : ℚ) (hd : 0 < d) (hd' : d * (707 / 1000) ≠ 1) :
    ∀ p ∈ getFaceConfigs (some "Z-up") (some d),
      (p.2).position ≠ 0 ∧
        ¬ Vec3.IsScalarMultiple (p.2).up ((p.2).lookAt - (p.2).position) := by
  simp only [getFaceConfigs, Option.getD_some, getZUpFaceConfigs, getYUpFaceConfigs,
    getEdgeConfigs, getCornerConfigs, String.reduceEq, reduceIte,
    List.forall_mem_append, List.forall_mem_cons, List.not_mem_nil, false_implies,
    forall_const, implies_true, and_true]
  repeat' apply And.intro
  all_goals first
    | (apply Vec3.ne_zero_of_normSq
       intro hc
       simp only [Vec3.normSq] at hc
       nlinarith [hd, sq_nonneg d])
    | (rintro ⟨k, hk⟩
       have h3 := congrArg Vec3.z hk
       simp only [Vec3.smul_def, Vec3.sub_def] at h3
       norm_num at h3
       done)
    | (rintro ⟨k, hk⟩
       have h3 := congrArg Vec3.y hk
       simp only [Vec3.smul_def, Vec3.sub_def] at h3
       norm_num at h3
       done)
    | (apply Vec3.not_scalarMultiple_of_crossSq
       intro hc
       simp only [Vec3.cross, Vec3.sub_def, Vec3.normSq] at hc
       rcases lt_or_gt_of_ne hd' with hlt | hgt
       · nlinarith [hc, hd, hlt, sq_nonneg d]
       · nlinarith [hc, hd, hgt, sq_nonneg d])

set_option maxHeartbeats 1000000 in
/-- Helper for C6: nondegeneracy of every Y-up entry, for every positive
distance. -/
theorem yupNondegenerate (d : ℚ) (hd : 0 < d) :
    ∀ p ∈ getFaceConfigs (some "Y-up") (some d),
      (p.2).position ≠ 0 ∧
        ¬ Vec3.IsScalarMultiple (p.2).up ((p.2).lookAt - (p.2).position) := by
  simp only [getFaceConfigs, Option.getD_some, getZUpFaceConfigs, getYUpFaceConfigs,
    getEdgeConfigs, getCornerConfigs, String.reduceEq, reduceIte,
    List.forall_mem_append, List.forall_mem_cons, List.not_mem_nil, false_implies,
    forall_const, implies_true, and_true]
  repeat' apply And.intro
  all_goals first
    | (apply Vec3.ne_zero_of_normSq
       intro hc
       simp only [Vec3.normSq] at hc
       nlinarith [hd, sq_nonneg d])
    | (rintro ⟨k, hk⟩
       have h3 := congrArg Vec3.z hk
       simp only [Vec3.smul_def, Vec3.sub_def] at h3
       norm_num at h3
       done)
    | (rintro ⟨k, hk⟩
       have h3 := congrArg Vec3.y hk
       simp only [Vec3.smul_def, Vec3.sub_def] at h3
       norm_num at h3
       done)
    | (apply Vec3.not_scalarMultiple_of_crossSq
       intro hc
       simp only [Vec3.cross, Vec3.sub_def, Vec3.normSq] at hc
       nlinarith [hd, sq_nonneg d])

/-- C6 amended: for both conventions, every positive distance and every
defined region, `position` is nonzero and `up` is not a scalar multiple of
`lookAt − position` — except that under Z-up the distance must also avoid
`d·0.707 = 1` (`d = 1000/707`), where the four top/bottom left/right edges
degenerate as shown by the counterexample. -/
theorem c6_amended (cs : String) (hcs : cs = "Y-up" ∨ cs = "Z-up") (d : ℚ)
    (hd : 0 < d) (hd' : cs = "Z-up" → d * (707 / 1000) ≠ 1) (n : ℕ)
    (cfg : RegionConfig)
    (h : (getFaceConfigs (some cs) (some d)).lookup n = some cfg) :
    cfg.position ≠ 0 ∧
      ¬ Vec3.IsScalarMultiple cfg.up (cfg.lookAt - cfg.position) := by
  rcases hcs with rfl | rfl
  · exact yupNondegenerate d hd (n, cfg) (mem_of_lookup_eq_some h)
  · exact zupNondegenerate d hd (hd' rfl) (n, cfg) (mem_of_lookup_eq_some h)

/-- Witness for the amended C6 at `cs = "Z-up"`, `d = 1`, `n = 1` (TOP). -/
theorem c6_amended_witness :
    (("Z-up" : String) = "Y-up" ∨ ("Z-up" : String) = "Z-up") ∧ (0 : ℚ) < 1 ∧
    (("Z-up" : String) = "Z-up" → (1 : ℚ) * (707 / 1000) ≠ 1) ∧
    ((getFaceConfigs (some "Z-up") (some 1)).lookup FACES.TOP =
      some ⟨⟨0, 1, 0⟩, ⟨0, 0, -1⟩, ⟨0, 0, 1⟩⟩) ∧
    ((⟨0, 0, 1⟩ : Vec3) ≠ 0 ∧
      ¬ Vec3.IsScalarMultiple ⟨0, 1, 0⟩ ((⟨0, 0, -1⟩ : Vec3) - ⟨0, 0, 1⟩)) :=
  ⟨Or.inr rfl, by norm_num, fun _ => by norm_num, rfl,
    c6_amended "Z-up" (Or.inr rfl) 1 (by norm_num) (fun _ => by norm_num)
      FACES.TOP ⟨⟨0, 1, 0⟩, ⟨0, 0, -1⟩, ⟨0, 0, 1⟩⟩ rfl⟩

/-- C1: for every unit camera quaternion `q`, the synchronizer returns
`invert(q)` composed with the fixed correction — the identity for Y-up and
the 90°-about-X rotation `zUpToYUp` for Z-up; in particular at the
identity orientation it returns the identity (Y-up) and exactly the
correction (Z-up). -/
theorem c1_sync_inversion (q : Quaternion ℝ) (hq : Quaternion.normSq q = 1) :
    (∀ cs, cs = "Y-up" ∨ cs = "Z-up" →
      setQuaternionRotation cs q = q⁻¹ * specCorrection cs) ∧
    setQuaternionRotation "Y-up" 1 = 1 ∧
    setQuaternionRotation "Z-up" 1 = zUpToYUp := by
  have hstar : star q = q⁻¹ := by
    have h1 : star q * q = 1 := by
      rw [Quaternion.star_mul_self, hq]
      norm_cast
    exact eq_inv_of_mul_eq_one_left h1
  refine ⟨fun cs hcs => ?_, ?_, ?_⟩
  · rcases hcs with rfl | rfl <;>
      simp [setQuaternionRotation, specCorrection, hstar]
  · simp [setQuaternionRotation]
  · simp [setQuaternionRotation]

/-- Witness for C1 at the identity quaternion. -/
theorem c1_sync_inversion_witness :
    Quaternion.normSq (1 : Quaternion ℝ) = 1 ∧
    ((∀ cs, cs = "Y-up" ∨ cs = "Z-up" →
        setQuaternionRotation cs 1 = (1 : Quaternion ℝ)⁻¹ * specCorrection cs) ∧
      setQuaternionRotation "Y-up" 1 = 1 ∧
      setQuaternionRotation "Z-up" 1 = zUpToYUp) :=
  ⟨by simp, c1_sync_inversion 1 (by simp)⟩

/-- C9: under the Y-up convention, the rotation the synchronizer returns
for a unit quaternion `q`, composed with `q` itself, is the identity
rotation. -/
theorem c9_sync_composition (q : Quaternion ℝ) (hq : Quaternion.normSq q = 1) :
    setQuaternionRotation "Y-up" q * q = 1 := by
  have h : setQuaternionRotation "Y-up" q = star q := by
    simp [setQuaternionRotation]
  rw [h, Quaternion.star_mul_self, hq]
  norm_cast

/-- Witness for C9 at the identity quaternion. -/
theorem c9_sync_composition_witness :
    Quaternion.normSq (1 : Quaternion ℝ) = 1 ∧
    setQuaternionRotation "Y-up" 1 * 1 = 1 :=
  ⟨by simp, c9_sync_composition 1 (by simp)⟩
